import Mathlib

/-!
Verification of the API contract synchronization pipeline of the
`hello-world-starter` monorepo: the Zod validators generated from the
OpenAPI Contract Document (`packages/api-types/src/generated/api-client.ts`),
the Required-Field Reinforcer (`packages/api-types/scripts/post-process-schemas.js`),
the Consistency Auditor (`packages/api-types/scripts/check-endpoints.js`),
and the Message Override Layer (`packages/api-types/src/extendedSchemas.ts`).

The embedding works on JSON object values represented as association lists,
and on generated-file text represented as lists of characters.
-/

namespace ApiPipeline

/-- A JSON value, as received by a Zod validator at runtime.  Top-level
objects are represented directly as association lists, so only the primitive
values that can occur at a property of the five generated schemas are needed
here (none of those schemas nests objects or arrays). -/
inductive JValue where
  | vStr : String → JValue
  | vNum : Int → JValue
  | vBool : Bool → JValue
  | vNull : JValue
deriving DecidableEq, Repr

/-- A single Zod validation issue: the path of the offending property and
the issue message. -/
structure ZodIssue where
  path : List String
  message : String
deriving DecidableEq, Repr

/-- A constraint attached to a `z.string()` chain in the generated client:
`.min(n, { message })`, `.max(n, { message })` or `.email({ message })`. -/
inductive StringCheck where
  | minLen : Nat → String → StringCheck
  | maxLen : Nat → String → StringCheck
  | emailFormat : String → StringCheck
deriving DecidableEq, Repr

/-- Modelled from the spec: the Validator Synthesizer's email format check
("format checks (e.g., email)", section 4.2).  Zod itself is an external
dependency whose source is not part of this repository; this model accepts a
string when it has exactly one at-sign, a non-empty local part, and a
non-empty domain that contains a dot and neither starts nor ends with one. -/
def isValidEmail (s : String) : Bool :=
  let cs := s.data
  let loc := cs.takeWhile (fun c => c ≠ '@')
  match cs.dropWhile (fun c => c ≠ '@') with
  | [] => false
  | _ :: domain =>
    !loc.isEmpty && !domain.isEmpty && !domain.contains '@' &&
      domain.contains '.' && domain.head? ≠ some '.' &&
      domain.getLast? ≠ some '.'

/-- Run one string constraint, returning the failure message if it fails. -/
def runStringCheck (c : StringCheck) (s : String) : Option String :=
  match c with
  | .minLen n msg => if s.length < n then some msg else none
  | .maxLen n msg => if s.length > n then some msg else none
  | .emailFormat msg => if isValidEmail s then none else some msg

/-- The primitive type of one property in a generated schema. -/
inductive ZodPrim where
  | zstring : List StringCheck → ZodPrim
  | zint : ZodPrim
deriving DecidableEq, Repr

/-- One property of a generated `z.object`: name, type, and whether it is
marked `.optional()`. -/
structure FieldSpec where
  name : String
  prim : ZodPrim
  optional : Bool
deriving DecidableEq, Repr

/-- Look up a key in a JSON object (association list). -/
def lookupJ (k : String) : List (String × JValue) → Option JValue
  | [] => none
  | (k', v) :: rest => if k' = k then some v else lookupJ k rest

/-- Issues produced for a present value checked against a primitive type:
a wrong runtime type yields a single invalid-type issue, a string value is
run through every constraint of the chain (Zod accumulates all failures). -/
def checkPrim (path : List String) (p : ZodPrim) (v : JValue) : List ZodIssue :=
  match p, v with
  | .zstring checks, .vStr s =>
    checks.filterMap (fun c => (runStringCheck c s).map (fun m => ⟨path, m⟩))
  | .zstring _, _ => [⟨path, "Expected string"⟩]
  | .zint, .vNum _ => []
  | .zint, _ => [⟨path, "Expected number"⟩]

/-- Issues produced for one declared property of an object schema: a missing
non-optional property yields Zod's `Required` issue, a missing optional
property is skipped, a present value is type- and constraint-checked. -/
def fieldIssues (fd : FieldSpec) (entries : List (String × JValue)) : List ZodIssue :=
  match lookupJ fd.name entries with
  | none => if fd.optional then [] else [⟨[fd.name], "Required"⟩]
  | some v => checkPrim [fd.name] fd.prim v

/-- Parse a JSON object against a generated `z.object(...).passthrough()`
schema: the issues of all declared properties are collected; unknown extra
properties are tolerated (passthrough). An empty issue list means success. -/
def zodParse (fields : List FieldSpec) (entries : List (String × JValue)) : List ZodIssue :=
  match fields with
  | [] => []
  | fd :: rest => fieldIssues fd entries ++ zodParse rest entries

/-- `fname` is declared in `sch` as a non-optional property. -/
def fieldRequiredIn (sch : List FieldSpec) (fname : String) : Bool :=
  sch.any (fun fd => fd.name == fname && !fd.optional)

/-- `fname` is declared in `sch` as a non-optional property whose check
rejects the empty string. -/
def fieldRejectsEmpty (sch : List FieldSpec) (fname : String) : Bool :=
  sch.any (fun fd =>
    fd.name == fname && !fd.optional &&
      !(checkPrim [fd.name] fd.prim (.vStr "")).isEmpty)

/-! ### The five generated schemas of `src/generated/api-client.ts`
(the committed, post-reinforcement artifact). -/

/-- `auth_register_Body` as declared in `api-client.ts` lines 4-13. -/
def auth_register_Body : List FieldSpec :=
  [ ⟨"name", .zstring [.minLen 1 "name is required",
      .maxLen 255 "String must contain at most 255 character(s)"], false⟩,
    ⟨"email", .zstring [.maxLen 255 "String must contain at most 255 character(s)",
      .emailFormat "Invalid email"], false⟩,
    ⟨"password", .zstring [.minLen 1 "password is required"], false⟩,
    ⟨"password_confirmation",
      .zstring [.minLen 1 "password_confirmation is required"], false⟩ ]

/-- `UserResource` as declared in `api-client.ts` lines 14-22. -/
def UserResource : List FieldSpec :=
  [ ⟨"id", .zint, false⟩,
    ⟨"name", .zstring [], false⟩,
    ⟨"email", .zstring [], false⟩,
    ⟨"created_at", .zstring [], false⟩,
    ⟨"updated_at", .zstring [], false⟩ ]

/-- `auth_login_Body` as declared in `api-client.ts` lines 23-28. -/
def auth_login_Body : List FieldSpec :=
  [ ⟨"email", .zstring [.emailFormat "Invalid email"], false⟩,
    ⟨"password", .zstring [.minLen 1 "password is required"], false⟩ ]

/-- `NoteResource` as declared in `api-client.ts` lines 29-39
(`authorName` is `.optional()`). -/
def NoteResource : List FieldSpec :=
  [ ⟨"id", .zint, false⟩,
    ⟨"title", .zstring [], false⟩,
    ⟨"content", .zstring [], false⟩,
    ⟨"userId", .zint, false⟩,
    ⟨"authorName", .zstring [], true⟩,
    ⟨"created_at", .zstring [], false⟩,
    ⟨"updated_at", .zstring [], false⟩ ]

/-- `note_store_Body` as declared in `api-client.ts` lines 40-45. -/
def note_store_Body : List FieldSpec :=
  [ ⟨"title", .zstring [.minLen 1 "title is required",
      .maxLen 255 "String must contain at most 255 character(s)"], false⟩,
    ⟨"content", .zstring [.minLen 1 "content is required"], false⟩ ]

/-- The named generated validators exported by `api-client.ts` (`schemas`). -/
def generatedSchemas : List (String × List FieldSpec) :=
  [ ("auth_register_Body", auth_register_Body),
    ("UserResource", UserResource),
    ("auth_login_Body", auth_login_Body),
    ("NoteResource", NoteResource),
    ("note_store_Body", note_store_Body) ]

/-- The generated validator with a given name (the empty schema for names that
do not occur, which never happens in the developments below). -/
def validatorOf (n : String) : List FieldSpec :=
  ((generatedSchemas.lookup n).getD [])

/-! ### The Contract Document (`apps/laravel-api/storage/openapi.json`)

Only the parts read by the pipeline scripts are embedded: for each path and
method, the `operationId` and, when the operation carries an
`application/json` request body schema, that schema's `required` list; plus
the `required` lists of the shared `components.schemas`. -/

/-- One operation of the Contract Document: its `operationId` and, when a
JSON request body schema is declared, the `required` list of that schema
(`none` when the operation has no request body). -/
structure ContractOperation where
  operationId : String
  requestRequired : Option (List String)
deriving DecidableEq, Repr

/-- The `paths` map of `openapi.json` (lines 13-256): path, then the list of
method/operation pairs in document order. -/
def contractPaths : List (String × List (String × ContractOperation)) :=
  [ ("/auth/register",
      [("post", ⟨"auth.register",
        some ["name", "email", "password", "password_confirmation"]⟩)]),
    ("/auth/login",
      [("post", ⟨"auth.login", some ["email", "password"]⟩)]),
    ("/auth/logout", [("post", ⟨"auth.logout", none⟩)]),
    ("/auth/user", [("get", ⟨"auth.user", none⟩)]),
    ("/notes",
      [("get", ⟨"note.index", none⟩),
       ("post", ⟨"note.store", some ["title", "content"]⟩)]),
    ("/documentation", [("get", ⟨"l5-swagger.default.api", none⟩)]),
    ("/oauth2-callback",
      [("get", ⟨"l5-swagger.default.oauth2_callback", none⟩)]) ]

/-- The `required` lists of the Contract Document's `components.schemas`
(`NoteResource` and `UserResource`). -/
def contractComponentRequired : List (String × List String) :=
  [ ("NoteResource",
      ["id", "title", "content", "userId", "created_at", "updated_at"]),
    ("UserResource", ["id", "name", "email", "created_at", "updated_at"]) ]

/-- `operationId.replace(/\./g, '_')` from `post-process-schemas.js` line 32. -/
def dotToUnderscore (s : String) : String :=
  ⟨s.data.map (fun c => if c = '.' then '_' else c)⟩

/-- `getRequiredFieldsFromOpenAPI` from `post-process-schemas.js` lines
20-42: walk every path and operation of the Contract Document; whenever an
operation has an `operationId` and a JSON request body schema with a
non-empty `required` list, record that list under the synthetic name
`operationId.replace(/\./g, '_') + '_Body'`. -/
def getRequiredFieldsFromOpenAPI : List (String × List String) :=
  contractPaths.foldl
    (fun acc p =>
      p.2.foldl
        (fun acc mo =>
          match mo.2.requestRequired with
          | some req =>
            if req.isEmpty then acc
            else acc ++ [(dotToUnderscore mo.2.operationId ++ "_Body", req)]
          | none => acc)
        acc)
    []

/-- The `{method, path}` pairs declared by the Contract Document's `paths`
map, used by the Auditor-completeness development. -/
def contractEndpointPairs : List (String × String) :=
  contractPaths.foldl
    (fun acc p => acc ++ p.2.map (fun mo => (mo.1, p.1)))
    []

/-! ### The Message Override Layer (`packages/api-types/src/extendedSchemas.ts`) -/

/-- The object part of `ExtendedRegisterSchema`:
`schemas.auth_register_Body.extend({...})` replaces all four property checks
with the hand-authored chains of `extendedSchemas.ts` lines 18-46. -/
def ExtendedRegisterObject : List FieldSpec :=
  [ ⟨"name", .zstring [.minLen 1 "Please enter your name",
      .maxLen 255 "Name must be less than 255 characters"], false⟩,
    ⟨"email", .zstring [.minLen 1 "Email is required",
      .maxLen 255 "String must contain at most 255 character(s)",
      .emailFormat "Please enter a valid email address"], false⟩,
    ⟨"password", .zstring [.minLen 8 "Password must be at least 8 characters"], false⟩,
    ⟨"password_confirmation",
      .zstring [.minLen 1 "Password confirmation is required"], false⟩ ]

/-- `ExtendedRegisterSchema` parsing (`extendedSchemas.ts` lines 18-50): the
extended object schema is parsed first; only when it succeeds does the
`.refine` run, comparing the parsed `password` and `password_confirmation`
and, on mismatch, emitting the single issue
`{ message: "Passwords don\x27t match", path: ["password_confirmation"] }`. -/
def parseExtendedRegister (entries : List (String × JValue)) : List ZodIssue :=
  let base := zodParse ExtendedRegisterObject entries
  if base.isEmpty then
    if lookupJ "password" entries = lookupJ "password_confirmation" entries then []
    else [⟨["password_confirmation"], "Passwords don\x27t match"⟩]
  else base

/-! ### The Required-Field Reinforcer (`post-process-schemas.js`)

The reinforcer is a textual rewrite over the generated file; file content is
embedded as a list of characters and each regular expression of the script is
embedded as the deterministic matcher it denotes (every quantified class in
those expressions is disjoint from the token that follows it, so the
JavaScript engine's greedy matching admits exactly one parse per position). -/

/-- The characters matched by the JavaScript regex class `\s` on the ASCII
text of the generated client. -/
def isJsSpace (c : Char) : Bool :=
  c = ' ' || c = '\n' || c = '\t' || c = '\r' || c = '\x0b' || c = '\x0c'

/-- `startsWithL pat s` : `pat` is a leading segment of `s`. -/
def startsWithL : List Char → List Char → Bool
  | [], _ => true
  | _ :: _, [] => false
  | p :: ps, c :: cs => p = c && startsWithL ps cs

/-- Strip the leading segment `pat` from `s`, failing when `s` does not
start with it. -/
def dropStart? : List Char → List Char → Option (List Char)
  | [], s => some s
  | _ :: _, [] => none
  | p :: ps, c :: cs => if p = c then dropStart? ps cs else none

/-- `String.prototype.includes`: `pat` occurs as a contiguous segment. -/
def containsSub (pat : List Char) : List Char → Bool
  | [] => startsWithL pat []
  | c :: cs => startsWithL pat (c :: cs) || containsSub pat cs

/-- The skip condition of the replacement callback (lines 69-71):
`p1.includes('.min(') || p1.includes('.email()')`. -/
def skipCond (p1 : List Char) : Bool :=
  containsSub ".min(".data p1 || containsSub ".email()".data p1

/-- The replacement text of the callback (line 74):
`field + ": z.string().min(1, \x7b message: '" + field + " is required' \x7d)" + p1`. -/
def fieldReplacement (f p1 : List Char) : List Char :=
  f ++ ": z.string().min(1, \x7b message: \x27".data ++ f ++
    " is required\x27 \x7d)".data ++ p1

/-- Match the field regex `field:\s*z\.string\(\)([^,]*)` at the start of
`s`; on success returns the matched text, the capture `p1`, and the rest of
`s` after the match. -/
def matchFieldHere (f : List Char) (s : List Char) :
    Option (List Char × List Char × List Char) :=
  match dropStart? (f ++ [':']) s with
  | none => none
  | some s1 =>
    match dropStart? "z.string()".data (s1.dropWhile isJsSpace) with
    | none => none
    | some s3 =>
      some (f ++ [':'] ++ s1.takeWhile isJsSpace ++ "z.string()".data ++
          s3.takeWhile (fun c => c ≠ ','),
        s3.takeWhile (fun c => c ≠ ','),
        s3.dropWhile (fun c => c ≠ ','))

/-- One global-flag regex replacement pass
`schemaContent.replace(fieldRegex, callback)` (lines 63-76), scanning left to
right and continuing after each non-overlapping match; the fuel argument is
an upper bound on the scan length. -/
def rewriteFieldsAux (f : List Char) : Nat → List Char → List Char
  | 0, s => s
  | _ + 1, [] => []
  | fuel + 1, c :: cs =>
    match matchFieldHere f (c :: cs) with
    | some (matched, p1, rest) =>
      (if skipCond p1 then matched else fieldReplacement f p1) ++
        rewriteFieldsAux f fuel rest
    | none => c :: rewriteFieldsAux f fuel cs

/-- The field rewrite of the reinforcer for one required field. -/
def rewriteFields (f s : List Char) : List Char :=
  rewriteFieldsAux f s.length s

/-- Every occurrence of the field regex that the rewrite pass would visit in
`s` satisfies the skip condition (its capture already carries `.min(` or
`.email()`): the scan mirrors `rewriteFieldsAux` position for position. -/
def allMatchesSkippableAux (f : List Char) : Nat → List Char → Bool
  | 0, _ => true
  | _ + 1, [] => true
  | fuel + 1, c :: cs =>
    match matchFieldHere f (c :: cs) with
    | some (_, p1, rest) => skipCond p1 && allMatchesSkippableAux f fuel rest
    | none => allMatchesSkippableAux f fuel cs

/-- Every field-regex occurrence for `f` in `s` already carries `.min(` or
`.email()` in its captured segment. -/
def allMatchesSkippable (f s : List Char) : Bool :=
  allMatchesSkippableAux f s.length s

/-- Match the schema regex
`const <name> = z\s*\.object\(\{([^}]+)\}\)\s*\.passthrough\(\);` at the
start of `s`, returning the capture (the object body). -/
def matchSchemaHere (name : List Char) (s : List Char) : Option (List Char) :=
  match dropStart? ("const ".data ++ name ++ " = z".data) s with
  | none => none
  | some s1 =>
    match dropStart? ".object(\x7b".data (s1.dropWhile isJsSpace) with
    | none => none
    | some s2 =>
      let inner := s2.takeWhile (fun c => c ≠ '\x7d')
      match s2.dropWhile (fun c => c ≠ '\x7d') with
      | [] => none
      | _ :: s3 =>
        if inner.isEmpty then none
        else
          match dropStart? [')'] s3 with
          | none => none
          | some s4 =>
            match dropStart? ".passthrough();".data (s4.dropWhile isJsSpace) with
            | none => none
            | some _ => some inner

/-- Scan for the first position where the schema regex matches
(`content.match(schemaRegex)`), returning its capture. -/
def findSchemaInnerAux (name : List Char) : Nat → List Char → Option (List Char)
  | 0, _ => none
  | fuel + 1, s =>
    match matchSchemaHere name s with
    | some inner => some inner
    | none =>
      match s with
      | [] => none
      | _ :: cs => findSchemaInnerAux name fuel cs

/-- First match of the schema regex for `name` anywhere in `s`. -/
def findSchemaInner (name s : List Char) : Option (List Char) :=
  findSchemaInnerAux name (s.length + 1) s

/-- `String.prototype.replace` with a plain string argument: replace the
first occurrence of `target` (the contents spliced by the script contain no
dollar sign, so the replacement is literal). -/
def replaceFirstAux (target repl : List Char) : Nat → List Char → List Char
  | 0, s => s
  | fuel + 1, s =>
    if startsWithL target s then repl ++ s.drop target.length
    else
      match s with
      | [] => []
      | c :: cs => c :: replaceFirstAux target repl fuel cs

/-- Replace the first occurrence of `target` in `s` by `repl`. -/
def replaceFirst (target repl s : List Char) : List Char :=
  replaceFirstAux target repl (s.length + 1) s

/-- One iteration of the `Object.entries(requiredFieldsMap).forEach` loop of
`addRequiredValidationToZodSchemas` (lines 49-81): locate the declaration
`const <name> = z.object(\x7b...\x7d).passthrough();`, rewrite each required
field inside the captured object body, and splice the result back by
replacing the first occurrence of the captured text in the whole content;
when the declaration pattern is not found the content is returned unchanged
(the `if (match)` guard, line 58). -/
def reinforceOne (name : List Char) (fields : List (List Char))
    (content : List Char) : List Char :=
  match findSchemaInner name content with
  | none => content
  | some inner =>
    let inner2 := fields.foldl (fun acc f => rewriteFields f acc) inner
    replaceFirst inner inner2 content

/-- `addRequiredValidationToZodSchemas` (lines 45-84): fold the reinforcement
of every schema of the required-field map, in map order, over the file
content. -/
def addRequiredValidationToZodSchemas
    (map : List (String × List String)) (content : String) : String :=
  ⟨map.foldl (fun c nf => reinforceOne nf.1.data (nf.2.map String.data) c)
    content.data⟩

/-! ### The Consistency Auditor (`check-endpoints.js`) -/

/-- Either quote accepted by the regex class `['"]`. -/
def isQuoteChar (c : Char) : Bool := c = '\x27' || c = '\x22'

/-- The regex class `\w`. -/
def isWordChar (c : Char) : Bool := c.isAlphanum || c = '_'

/-- Consume one quote character. -/
def expectQuote : List Char → Option (List Char)
  | [] => none
  | c :: cs => if isQuoteChar c then some cs else none

/-- Consume a non-empty maximal run of characters satisfying `p`. -/
def takeTok (p : Char → Bool) (s : List Char) :
    Option (List Char × List Char) :=
  let tk := s.takeWhile p
  if tk.isEmpty then none else some (tk, s.dropWhile p)

/-- Consume a quoted token: one quote, a non-empty run of characters
satisfying `p`, one quote (the regex fragment `['"](...)['"]`). -/
def matchQuotedTok (p : Char → Bool) (s : List Char) :
    Option (List Char × List Char) :=
  match expectQuote s with
  | none => none
  | some s1 =>
    match takeTok p s1 with
    | none => none
    | some (tk, s2) =>
      match expectQuote s2 with
      | none => none
      | some s3 => some (tk, s3)

/-- Consume the regex fragment `,\s*<key>\s*['"](...)['"]` (the separator
between two captured properties of the endpoint regex). -/
def matchSepKeyed (key : List Char) (p : Char → Bool) (s : List Char) :
    Option (List Char × List Char) :=
  match dropStart? [','] s with
  | none => none
  | some s1 =>
    match dropStart? key (s1.dropWhile isJsSpace) with
    | none => none
    | some s2 => matchQuotedTok p (s2.dropWhile isJsSpace)

/-- Match the endpoint regex of `check-endpoints.js` (lines 31-32),
`method:\s*['"](\w+)['"],\s*path:\s*['"]([^'"]+)['"],\s*alias:\s*['"]([^'"]+)['"]`,
at the start of `s`, returning the three captures and the rest after the
match. -/
def matchEndpointHere (s : List Char) :
    Option ((String × String × String) × List Char) :=
  match dropStart? "method:".data s with
  | none => none
  | some s1 =>
    match matchQuotedTok isWordChar (s1.dropWhile isJsSpace) with
    | none => none
    | some (m, s2) =>
      match matchSepKeyed "path:".data (fun c => !isQuoteChar c) s2 with
      | none => none
      | some (p, s3) =>
        match matchSepKeyed "alias:".data (fun c => !isQuoteChar c) s3 with
        | none => none
        | some (a, s4) => some ((⟨m⟩, ⟨p⟩, ⟨a⟩), s4)

/-- The `while ((match = endpointRegex.exec(...)))` loop (lines 36-43):
collect every non-overlapping match left to right. -/
def extractEndpointsAux : Nat → List Char → List (String × String × String)
  | 0, _ => []
  | fuel + 1, s =>
    match matchEndpointHere s with
    | some (t, rest) => t :: extractEndpointsAux fuel rest
    | none =>
      match s with
      | [] => []
      | _ :: cs => extractEndpointsAux fuel cs

/-- The Auditor's extracted endpoint list for a given client file content. -/
def extractedEndpoints (content : String) : List (String × String × String) :=
  extractEndpointsAux (content.data.length + 1) content.data

/-- The observable outcome of running `check-endpoints.js` standalone: when
the generated client file is absent the script prints an error and calls
`process.exit(1)` (lines 17-23); otherwise it extracts the endpoint list,
prints its report, and runs to completion (exit code 0). -/
def checkEndpointsRun (clientFileExists : Bool) (content : String) :
    Nat × List (String × String × String) :=
  if clientFileExists then (0, extractedEndpoints content) else (1, [])

/-- A client-file content on which the reinforcer is not idempotent: the
object body of the `note_store_Body` declaration also occurs verbatim before
the declaration, so `content.replace(match[1], schemaContent)` splices the
rewritten body into the earlier copy and leaves the declaration itself
unchanged, to be rewritten again by the next run. -/
def duplicatedTitleContent : String :=
  "title: z.string()const note_store_Body = z.object(\x7btitle: z.string()\x7d).passthrough();"

/-- A register request whose per-field checks all pass but whose two password
fields disagree. -/
def mismatchedRegisterInput : List (String × JValue) :=
  [ ("name", .vStr "John Doe"),
    ("email", .vStr "john@example.com"),
    ("password", .vStr "password123"),
    ("password_confirmation", .vStr "password124") ]

/-- A field check that already carries a stricter minimum-length constraint,
in the style of the Message Override Layer's password rule. -/
def minEightFieldText : String :=
  "password: z.string().min(8, \x7b message: \x27Password must be at least 8 characters\x27 \x7d),"

/-! ### The committed content of `src/generated/api-client.ts`
(the generated, reinforced artifact checked into the repository), split
into consecutive pieces so that the developments below can step through
the file segment by segment. -/

/-- Characters 0 to 700 of the committed `api-client.ts`. -/
def apiChunk0 : String :=
  "import \x7b makeApi, Zodios, type ZodiosOptions \x7d from \x27@zodios/core\x27;\nimport \x7b z \x7d from \x27zod\x27;\n\nconst auth_register_Body = z\n  .object(\x7b\n    name: z.string().min(1, \x7b message: \x27name is required\x27 \x7d).max(255),\n    email: z.string().max(255).email(),\n    password: z.string().min(1, \x7b message: \x27password is required\x27 \x7d),\n    p" ++
  "assword_confirmation: z\n      .string()\n      .min(1, \x7b message: \x27password_confirmation is required\x27 \x7d),\n  \x7d)\n  .passthrough();\nconst UserResource = z\n  .object(\x7b\n    id: z.number().int(),\n    name: z.string(),\n    email: z.string(),\n    created_at: z.string(),\n    updated_at: z.string(),\n  \x7d)\n  .passthrough();\nconst auth_login_Body = z\n  .ob" ++
  "ject(\x7b\n    email: z.string().email("

/-- Characters 700 to 1400 of the committed `api-client.ts`. -/
def apiChunk1 : String :=
  "),\n    password: z.string().min(1, \x7b message: \x27password is required\x27 \x7d),\n  \x7d)\n  .passthrough();\nconst NoteResource = z\n  .object(\x7b\n    id: z.number().int(),\n    title: z.string(),\n    content: z.string(),\n    userId: z.number().int(),\n    authorName: z.string().optional(),\n    created_at: z.string(),\n    updated_at: z.string(),\n  \x7d)\n  .passthr" ++
  "ough();\nconst note_store_Body = z\n  .object(\x7b\n    title: z.string().min(1, \x7b message: \x27title is required\x27 \x7d).max(255),\n    content: z.string().min(1, \x7b message: \x27content is required\x27 \x7d),\n  \x7d)\n  .passthrough();\n\nexport const schemas = \x7b\n  auth_register_Body,\n  UserResource,\n  auth_login_Body,\n  NoteResource,\n  note_store_Body,\n\x7d;" ++
  "\n\nconst endpoints = makeA"

/-- Characters 1400 to 2100 of the committed `api-client.ts`. -/
def apiChunk2 : String :=
  "pi([\n  \x7b\n    method: \x27post\x27,\n    path: \x27/auth/login\x27,\n    alias: \x27auth.login\x27,\n    description: \x60Custom validation error messages for this endpoint are defined in ExtendedLoginSchema\nat packages/api-types/src/extendedSchemas.ts.\x60,\n    requestFormat: \x27json\x27,\n    parameters: [\n      \x7b\n        name: \x27body\x27,\n        type: \x27Bod" ++
  "y\x27,\n        schema: auth_login_Body,\n      \x7d,\n    ],\n    response: z\n      .object(\x7b message: z.string(), user: UserResource, token: z.string() \x7d)\n      .passthrough(),\n    errors: [\n      \x7b\n        status: 422,\n        description: \x60Validation error\x60,\n        schema: z\n          .object(\x7b\n            message: z.string().describe(\x27Errors " ++
  "overview.\x27),\n            errors: z\n "

/-- Characters 2100 to 2800 of the committed `api-client.ts`. -/
def apiChunk3 : String :=
  "             .record(z.array(z.string()))\n              .describe(\n                \x27A detailed description of each field that failed validation.\x27\n              ),\n          \x7d)\n          .passthrough(),\n      \x7d,\n    ],\n  \x7d,\n  \x7b\n    method: \x27post\x27,\n    path: \x27/auth/logout\x27,\n    alias: \x27auth.logout\x27,\n    requestFormat: \x27json\x27," ++
  "\n    response: z.object(\x7b message: z.string() \x7d).passthrough(),\n    errors: [\n      \x7b\n        status: 401,\n        description: \x60Unauthenticated\x60,\n        schema: z\n          .object(\x7b message: z.string().describe(\x27Error overview.\x27) \x7d)\n          .passthrough(),\n      \x7d,\n    ],\n  \x7d,\n  \x7b\n    method: \x27post\x27,\n    path: \x27/au" ++
  "th/register\x27,\n    alias: \x27auth.register\x27,\n    descript"

/-- Characters 2800 to 3500 of the committed `api-client.ts`. -/
def apiChunk4 : String :=
  "ion: \x60Custom validation error messages for this endpoint are defined in ExtendedRegisterSchema\nat packages/api-types/src/extendedSchemas.ts.\x60,\n    requestFormat: \x27json\x27,\n    parameters: [\n      \x7b\n        name: \x27body\x27,\n        type: \x27Body\x27,\n        schema: auth_register_Body,\n      \x7d,\n    ],\n    response: z\n      .object(\x7b message: z.s" ++
  "tring(), user: UserResource, token: z.string() \x7d)\n      .passthrough(),\n    errors: [\n      \x7b\n        status: 422,\n        description: \x60Validation error\x60,\n        schema: z\n          .object(\x7b\n            message: z.string().describe(\x27Errors overview.\x27),\n            errors: z\n              .record(z.array(z.string()))\n              .describe(\n " ++
  "               \x27A"

/-- Characters 3500 to 4200 of the committed `api-client.ts`. -/
def apiChunk5 : String :=
  " detailed description of each field that failed validation.\x27\n              ),\n          \x7d)\n          .passthrough(),\n      \x7d,\n    ],\n  \x7d,\n  \x7b\n    method: \x27get\x27,\n    path: \x27/auth/user\x27,\n    alias: \x27auth.user\x27,\n    requestFormat: \x27json\x27,\n    response: UserResource,\n    errors: [\n      \x7b\n        status: 401,\n        descrip" ++
  "tion: \x60Unauthenticated\x60,\n        schema: z\n          .object(\x7b message: z.string().describe(\x27Error overview.\x27) \x7d)\n          .passthrough(),\n      \x7d,\n    ],\n  \x7d,\n  \x7b\n    method: \x27get\x27,\n    path: \x27/documentation\x27,\n    alias: \x27l5-swagger.default.api\x27,\n    requestFormat: \x27json\x27,\n    response: z.string(),\n  \x7d,\n  \x7b" ++
  "\n    method: \x27get\x27,\n    path: \x27/notes\x27,\n    alias: \x27note.index\x27,\n   "

/-- Characters 4200 to 4900 of the committed `api-client.ts`. -/
def apiChunk6 : String :=
  " description: \x60Retrieves all notes from the database with their associated authors.\nThis endpoint is public and does not require authentication.\x60,\n    requestFormat: \x27json\x27,\n    response: z.array(NoteResource),\n  \x7d,\n  \x7b\n    method: \x27post\x27,\n    path: \x27/notes\x27,\n    alias: \x27note.store\x27,\n    description: \x60Custom validation error messa" ++
  "ges for this endpoint are defined in ExtendedNoteSchema\nat packages/api-types/src/extendedSchemas.ts.\x60,\n    requestFormat: \x27json\x27,\n    parameters: [\n      \x7b\n        name: \x27body\x27,\n        type: \x27Body\x27,\n        schema: note_store_Body,\n      \x7d,\n    ],\n    response: NoteResource,\n    errors: [\n      \x7b\n        status: 401,\n        descrip" ++
  "tion: \x60Unauthenticated\x60,\n       "

/-- Characters 4900 to 5600 of the committed `api-client.ts`. -/
def apiChunk7 : String :=
  " schema: z\n          .object(\x7b message: z.string().describe(\x27Error overview.\x27) \x7d)\n          .passthrough(),\n      \x7d,\n      \x7b\n        status: 422,\n        description: \x60Validation error\x60,\n        schema: z\n          .object(\x7b\n            message: z.string().describe(\x27Errors overview.\x27),\n            errors: z\n              .record(z.arr" ++
  "ay(z.string()))\n              .describe(\n                \x27A detailed description of each field that failed validation.\x27\n              ),\n          \x7d)\n          .passthrough(),\n      \x7d,\n    ],\n  \x7d,\n  \x7b\n    method: \x27get\x27,\n    path: \x27/oauth2-callback\x27,\n    alias: \x27l5-swagger.default.oauth2_callback\x27,\n    requestFormat: \x27json\x27," ++
  "\n    response: z.string(),\n  \x7d,\n]);\n\nex"

/-- Characters 5600 to 5775 of the committed `api-client.ts`. -/
def apiChunk8 : String :=
  "port const apiClient = new Zodios(endpoints);\n\nexport function createApiClient(baseUrl: string, options?: ZodiosOptions) \x7b\n  return new Zodios(baseUrl, endpoints, options);\n\x7d\n"

/-- The committed `api-client.ts` from character 5600 on. -/
def apiTail8 : String := apiChunk8

/-- The committed `api-client.ts` from character 4900 on. -/
def apiTail7 : String := apiChunk7 ++ apiTail8

/-- The committed `api-client.ts` from character 4200 on. -/
def apiTail6 : String := apiChunk6 ++ apiTail7

/-- The committed `api-client.ts` from character 3500 on. -/
def apiTail5 : String := apiChunk5 ++ apiTail6

/-- The committed `api-client.ts` from character 2800 on. -/
def apiTail4 : String := apiChunk4 ++ apiTail5

/-- The committed `api-client.ts` from character 2100 on. -/
def apiTail3 : String := apiChunk3 ++ apiTail4

/-- The committed `api-client.ts` from character 1400 on. -/
def apiTail2 : String := apiChunk2 ++ apiTail3

/-- The committed `api-client.ts` from character 700 on. -/
def apiTail1 : String := apiChunk1 ++ apiTail2

/-- The committed `api-client.ts` from character 0 on. -/
def apiTail0 : String := apiChunk0 ++ apiTail1

/-- The full committed content of `src/generated/api-client.ts`. -/
def apiClientContent : String := apiTail0

/-! ### Bounded scans

`schemaProbe` and `endpointProbe` run the scanning loops of the two scripts
for a bounded number of positions and return the remaining suffix when the
bound is reached.  They exist so that a scan over the whole generated file
can be evaluated segment by segment; the lemmas `findSchemaInnerAux_add` and
`extractEndpointsAux_add` below tie them to the actual scan functions. -/

/-- Run the schema-declaration scan for at most `fuel` positions: an early
`.inl` result is the scan's final answer (match found, or end of input), a
`.inr` result is the suffix still to be scanned. -/
def schemaProbe (name : List Char) : Nat → List Char → Option (List Char) ⊕ List Char
  | 0, s => .inr s
  | fuel + 1, s =>
    match matchSchemaHere name s with
    | some inner => .inl (some inner)
    | none =>
      match s with
      | [] => .inl none
      | _ :: cs => schemaProbe name fuel cs

/-- Run the endpoint-extraction scan for at most `fuel` positions: `.inr`
means the input was exhausted (final triple list), `.inl` carries the triples
collected so far and the suffix still to be scanned. -/
def endpointProbe :
    Nat → List Char →
      (List (String × String × String) × List Char) ⊕
        List (String × String × String)
  | 0, s => .inl ([], s)
  | fuel + 1, s =>
    match matchEndpointHere s with
    | some (t, rest) =>
      match endpointProbe fuel rest with
      | .inl (ts, s') => .inl (t :: ts, s')
      | .inr ts => .inr (t :: ts)
    | none =>
      match s with
      | [] => .inr []
      | _ :: cs => endpointProbe fuel cs

end ApiPipeline

namespace ApiPipeline

/-- `(a ++ b).data = a.data ++ b.data` for strings. -/
theorem string_data_append (a b : String) : (a ++ b).data = a.data ++ b.data :=
  rfl

/-- Splitting the fuel of the schema-declaration scan: running `k + j` steps
is running a `k`-step probe and, when it neither matched nor exhausted the
input, continuing with `j` steps from the returned suffix. -/
theorem findSchemaInnerAux_add (name : List Char) :
    ∀ (k : Nat) (j : Nat) (s : List Char),
      findSchemaInnerAux name (k + j) s =
        (match schemaProbe name k s with
          | .inl r => r
          | .inr s' => findSchemaInnerAux name j s') := by
  intro k
  induction k with
  | zero =>
    intro j s
    simp [schemaProbe, Nat.zero_add]
  | succ k ih =>
    intro j s
    have hs : k + 1 + j = (k + j) + 1 := by omega
    rw [hs]
    show (match matchSchemaHere name s with
      | some inner => some inner
      | none =>
        match s with
        | [] => none
        | _ :: cs => findSchemaInnerAux name (k + j) cs) = _
    cases hm : matchSchemaHere name s with
    | some inner => simp [schemaProbe, hm]
    | none =>
      cases s with
      | nil => simp [schemaProbe, hm]
      | cons c cs => simpa [schemaProbe, hm] using ih j cs

/-- Splitting the fuel of the endpoint-extraction scan, in the same way. -/
theorem extractEndpointsAux_add :
    ∀ (k : Nat) (j : Nat) (s : List Char),
      extractEndpointsAux (k + j) s =
        (match endpointProbe k s with
          | .inl (ts, s') => ts ++ extractEndpointsAux j s'
          | .inr ts => ts) := by
  intro k
  induction k with
  | zero =>
    intro j s
    simp [endpointProbe, Nat.zero_add]
  | succ k ih =>
    intro j s
    have hs : k + 1 + j = (k + j) + 1 := by omega
    rw [hs]
    show (match matchEndpointHere s with
      | some (t, rest) => t :: extractEndpointsAux (k + j) rest
      | none =>
        match s with
        | [] => []
        | _ :: cs => extractEndpointsAux (k + j) cs) = _
    cases hm : matchEndpointHere s with
    | some tr =>
      obtain ⟨t, rest⟩ := tr
      simp only [endpointProbe, hm]
      rw [ih j rest]
      cases hp : endpointProbe k rest with
      | inl p => obtain ⟨ts, s'⟩ := p; simp [hp]
      | inr ts => simp [hp]
    | none =>
      cases s with
      | nil => simp [endpointProbe, hm]
      | cons c cs => simpa [endpointProbe, hm] using ih j cs

/-! ### Segment-by-segment evaluation of the two whole-file scans -/

set_option maxRecDepth 100000

/-- Length of segment 0 of the committed client file. -/
theorem apiChunkLen0 : apiChunk0.data.length = 700 := by decide

/-- Length of segment 1 of the committed client file. -/
theorem apiChunkLen1 : apiChunk1.data.length = 700 := by decide

/-- Length of segment 2 of the committed client file. -/
theorem apiChunkLen2 : apiChunk2.data.length = 700 := by decide

/-- Length of segment 3 of the committed client file. -/
theorem apiChunkLen3 : apiChunk3.data.length = 700 := by decide

/-- Length of segment 4 of the committed client file. -/
theorem apiChunkLen4 : apiChunk4.data.length = 700 := by decide

/-- Length of segment 5 of the committed client file. -/
theorem apiChunkLen5 : apiChunk5.data.length = 700 := by decide

/-- Length of segment 6 of the committed client file. -/
theorem apiChunkLen6 : apiChunk6.data.length = 700 := by decide

/-- Length of segment 7 of the committed client file. -/
theorem apiChunkLen7 : apiChunk7.data.length = 700 := by decide

/-- Length of segment 8 of the committed client file. -/
theorem apiChunkLen8 : apiChunk8.data.length = 175 := by decide

/-- Length of the committed client file from character 5600 on. -/
theorem apiTailLen8 : apiTail8.data.length = 175 := apiChunkLen8

/-- Length of the committed client file from character 4900 on. -/
theorem apiTailLen7 : apiTail7.data.length = 875 := by
  show (apiChunk7 ++ apiTail8).data.length = 875
  rw [string_data_append, List.length_append, apiChunkLen7, apiTailLen8]

/-- Length of the committed client file from character 4200 on. -/
theorem apiTailLen6 : apiTail6.data.length = 1575 := by
  show (apiChunk6 ++ apiTail7).data.length = 1575
  rw [string_data_append, List.length_append, apiChunkLen6, apiTailLen7]

/-- Length of the committed client file from character 3500 on. -/
theorem apiTailLen5 : apiTail5.data.length = 2275 := by
  show (apiChunk5 ++ apiTail6).data.length = 2275
  rw [string_data_append, List.length_append, apiChunkLen5, apiTailLen6]

/-- Length of the committed client file from character 2800 on. -/
theorem apiTailLen4 : apiTail4.data.length = 2975 := by
  show (apiChunk4 ++ apiTail5).data.length = 2975
  rw [string_data_append, List.length_append, apiChunkLen4, apiTailLen5]

/-- Length of the committed client file from character 2100 on. -/
theorem apiTailLen3 : apiTail3.data.length = 3675 := by
  show (apiChunk3 ++ apiTail4).data.length = 3675
  rw [string_data_append, List.length_append, apiChunkLen3, apiTailLen4]

/-- Length of the committed client file from character 1400 on. -/
theorem apiTailLen2 : apiTail2.data.length = 4375 := by
  show (apiChunk2 ++ apiTail3).data.length = 4375
  rw [string_data_append, List.length_append, apiChunkLen2, apiTailLen3]

/-- Length of the committed client file from character 700 on. -/
theorem apiTailLen1 : apiTail1.data.length = 5075 := by
  show (apiChunk1 ++ apiTail2).data.length = 5075
  rw [string_data_append, List.length_append, apiChunkLen1, apiTailLen2]

/-- Length of the committed client file from character 0 on. -/
theorem apiTailLen0 : apiTail0.data.length = 5775 := by
  show (apiChunk0 ++ apiTail1).data.length = 5775
  rw [string_data_append, List.length_append, apiChunkLen0, apiTailLen1]

/-- Length of the committed client file. -/
theorem apiContentLen : apiClientContent.data.length = 5775 := apiTailLen0

/-- The schema regex for `auth_register_Body` matches nowhere in segment 0. -/
theorem schemaScanReg0 :
    schemaProbe "auth_register_Body".data 700 apiTail0.data = .inr apiTail1.data := rfl

/-- The schema regex for `auth_register_Body` matches nowhere in segment 1. -/
theorem schemaScanReg1 :
    schemaProbe "auth_register_Body".data 700 apiTail1.data = .inr apiTail2.data := rfl

/-- The schema regex for `auth_register_Body` matches nowhere in segment 2. -/
theorem schemaScanReg2 :
    schemaProbe "auth_register_Body".data 700 apiTail2.data = .inr apiTail3.data := rfl

/-- The schema regex for `auth_register_Body` matches nowhere in segment 3. -/
theorem schemaScanReg3 :
    schemaProbe "auth_register_Body".data 700 apiTail3.data = .inr apiTail4.data := rfl

/-- The schema regex for `auth_register_Body` matches nowhere in segment 4. -/
theorem schemaScanReg4 :
    schemaProbe "auth_register_Body".data 700 apiTail4.data = .inr apiTail5.data := rfl

/-- The schema regex for `auth_register_Body` matches nowhere in segment 5. -/
theorem schemaScanReg5 :
    schemaProbe "auth_register_Body".data 700 apiTail5.data = .inr apiTail6.data := rfl

/-- The schema regex for `auth_register_Body` matches nowhere in segment 6. -/
theorem schemaScanReg6 :
    schemaProbe "auth_register_Body".data 700 apiTail6.data = .inr apiTail7.data := rfl

/-- The schema regex for `auth_register_Body` matches nowhere in segment 7. -/
theorem schemaScanReg7 :
    schemaProbe "auth_register_Body".data 700 apiTail7.data = .inr apiTail8.data := rfl

/-- The schema regex for `auth_register_Body` matches nowhere in the last segment. -/
theorem schemaTailReg8 :
    findSchemaInnerAux "auth_register_Body".data 176 apiTail8.data = none := rfl

/-- The schema regex for `auth_register_Body` matches nowhere from character 4900 on. -/
theorem schemaTailReg7 :
    findSchemaInnerAux "auth_register_Body".data 876 apiTail7.data = none := by
  have h : (876 : Nat) = 700 + 176 := by norm_num
  rw [h, findSchemaInnerAux_add, schemaScanReg7]
  exact schemaTailReg8

/-- The schema regex for `auth_register_Body` matches nowhere from character 4200 on. -/
theorem schemaTailReg6 :
    findSchemaInnerAux "auth_register_Body".data 1576 apiTail6.data = none := by
  have h : (1576 : Nat) = 700 + 876 := by norm_num
  rw [h, findSchemaInnerAux_add, schemaScanReg6]
  exact schemaTailReg7

/-- The schema regex for `auth_register_Body` matches nowhere from character 3500 on. -/
theorem schemaTailReg5 :
    findSchemaInnerAux "auth_register_Body".data 2276 apiTail5.data = none := by
  have h : (2276 : Nat) = 700 + 1576 := by norm_num
  rw [h, findSchemaInnerAux_add, schemaScanReg5]
  exact schemaTailReg6

/-- The schema regex for `auth_register_Body` matches nowhere from character 2800 on. -/
theorem schemaTailReg4 :
    findSchemaInnerAux "auth_register_Body".data 2976 apiTail4.data = none := by
  have h : (2976 : Nat) = 700 + 2276 := by norm_num
  rw [h, findSchemaInnerAux_add, schemaScanReg4]
  exact schemaTailReg5

/-- The schema regex for `auth_register_Body` matches nowhere from character 2100 on. -/
theorem schemaTailReg3 :
    findSchemaInnerAux "auth_register_Body".data 3676 apiTail3.data = none := by
  have h : (3676 : Nat) = 700 + 2976 := by norm_num
  rw [h, findSchemaInnerAux_add, schemaScanReg3]
  exact schemaTailReg4

/-- The schema regex for `auth_register_Body` matches nowhere from character 1400 on. -/
theorem schemaTailReg2 :
    findSchemaInnerAux "auth_register_Body".data 4376 apiTail2.data = none := by
  have h : (4376 : Nat) = 700 + 3676 := by norm_num
  rw [h, findSchemaInnerAux_add, schemaScanReg2]
  exact schemaTailReg3

/-- The schema regex for `auth_register_Body` matches nowhere from character 700 on. -/
theorem schemaTailReg1 :
    findSchemaInnerAux "auth_register_Body".data 5076 apiTail1.data = none := by
  have h : (5076 : Nat) = 700 + 4376 := by norm_num
  rw [h, findSchemaInnerAux_add, schemaScanReg1]
  exact schemaTailReg2

/-- The schema regex for `auth_register_Body` matches nowhere from character 0 on. -/
theorem schemaTailReg0 :
    findSchemaInnerAux "auth_register_Body".data 5776 apiTail0.data = none := by
  have h : (5776 : Nat) = 700 + 5076 := by norm_num
  rw [h, findSchemaInnerAux_add, schemaScanReg0]
  exact schemaTailReg1

/-- The schema declaration pattern for `auth_register_Body` does not match anywhere
in the committed client file (the injected message objects put a closing
brace before the `).passthrough();` that the pattern requires). -/
theorem findSchemaInner_auth_register_Body_none :
    findSchemaInner "auth_register_Body".data apiClientContent.data = none := by
  unfold findSchemaInner
  rw [apiContentLen]
  exact schemaTailReg0

/-- The schema regex for `auth_login_Body` matches nowhere in segment 0. -/
theorem schemaScanLogin0 :
    schemaProbe "auth_login_Body".data 700 apiTail0.data = .inr apiTail1.data := rfl

/-- The schema regex for `auth_login_Body` matches nowhere in segment 1. -/
theorem schemaScanLogin1 :
    schemaProbe "auth_login_Body".data 700 apiTail1.data = .inr apiTail2.data := rfl

/-- The schema regex for `auth_login_Body` matches nowhere in segment 2. -/
theorem schemaScanLogin2 :
    schemaProbe "auth_login_Body".data 700 apiTail2.data = .inr apiTail3.data := rfl

/-- The schema regex for `auth_login_Body` matches nowhere in segment 3. -/
theorem schemaScanLogin3 :
    schemaProbe "auth_login_Body".data 700 apiTail3.data = .inr apiTail4.data := rfl

/-- The schema regex for `auth_login_Body` matches nowhere in segment 4. -/
theorem schemaScanLogin4 :
    schemaProbe "auth_login_Body".data 700 apiTail4.data = .inr apiTail5.data := rfl

/-- The schema regex for `auth_login_Body` matches nowhere in segment 5. -/
theorem schemaScanLogin5 :
    schemaProbe "auth_login_Body".data 700 apiTail5.data = .inr apiTail6.data := rfl

/-- The schema regex for `auth_login_Body` matches nowhere in segment 6. -/
theorem schemaScanLogin6 :
    schemaProbe "auth_login_Body".data 700 apiTail6.data = .inr apiTail7.data := rfl

/-- The schema regex for `auth_login_Body` matches nowhere in segment 7. -/
theorem schemaScanLogin7 :
    schemaProbe "auth_login_Body".data 700 apiTail7.data = .inr apiTail8.data := rfl

/-- The schema regex for `auth_login_Body` matches nowhere in the last segment. -/
theorem schemaTailLogin8 :
    findSchemaInnerAux "auth_login_Body".data 176 apiTail8.data = none := rfl

/-- The schema regex for `auth_login_Body` matches nowhere from character 4900 on. -/
theorem schemaTailLogin7 :
    findSchemaInnerAux "auth_login_Body".data 876 apiTail7.data = none := by
  have h : (876 : Nat) = 700 + 176 := by norm_num
  rw [h, findSchemaInnerAux_add, schemaScanLogin7]
  exact schemaTailLogin8

/-- The schema regex for `auth_login_Body` matches nowhere from character 4200 on. -/
theorem schemaTailLogin6 :
    findSchemaInnerAux "auth_login_Body".data 1576 apiTail6.data = none := by
  have h : (1576 : Nat) = 700 + 876 := by norm_num
  rw [h, findSchemaInnerAux_add, schemaScanLogin6]
  exact schemaTailLogin7

/-- The schema regex for `auth_login_Body` matches nowhere from character 3500 on. -/
theorem schemaTailLogin5 :
    findSchemaInnerAux "auth_login_Body".data 2276 apiTail5.data = none := by
  have h : (2276 : Nat) = 700 + 1576 := by norm_num
  rw [h, findSchemaInnerAux_add, schemaScanLogin5]
  exact schemaTailLogin6

/-- The schema regex for `auth_login_Body` matches nowhere from character 2800 on. -/
theorem schemaTailLogin4 :
    findSchemaInnerAux "auth_login_Body".data 2976 apiTail4.data = none := by
  have h : (2976 : Nat) = 700 + 2276 := by norm_num
  rw [h, findSchemaInnerAux_add, schemaScanLogin4]
  exact schemaTailLogin5

/-- The schema regex for `auth_login_Body` matches nowhere from character 2100 on. -/
theorem schemaTailLogin3 :
    findSchemaInnerAux "auth_login_Body".data 3676 apiTail3.data = none := by
  have h : (3676 : Nat) = 700 + 2976 := by norm_num
  rw [h, findSchemaInnerAux_add, schemaScanLogin3]
  exact schemaTailLogin4

/-- The schema regex for `auth_login_Body` matches nowhere from character 1400 on. -/
theorem schemaTailLogin2 :
    findSchemaInnerAux "auth_login_Body".data 4376 apiTail2.data = none := by
  have h : (4376 : Nat) = 700 + 3676 := by norm_num
  rw [h, findSchemaInnerAux_add, schemaScanLogin2]
  exact schemaTailLogin3

/-- The schema regex for `auth_login_Body` matches nowhere from character 700 on. -/
theorem schemaTailLogin1 :
    findSchemaInnerAux "auth_login_Body".data 5076 apiTail1.data = none := by
  have h : (5076 : Nat) = 700 + 4376 := by norm_num
  rw [h, findSchemaInnerAux_add, schemaScanLogin1]
  exact schemaTailLogin2

/-- The schema regex for `auth_login_Body` matches nowhere from character 0 on. -/
theorem schemaTailLogin0 :
    findSchemaInnerAux "auth_login_Body".data 5776 apiTail0.data = none := by
  have h : (5776 : Nat) = 700 + 5076 := by norm_num
  rw [h, findSchemaInnerAux_add, schemaScanLogin0]
  exact schemaTailLogin1

/-- The schema declaration pattern for `auth_login_Body` does not match anywhere
in the committed client file (the injected message objects put a closing
brace before the `).passthrough();` that the pattern requires). -/
theorem findSchemaInner_auth_login_Body_none :
    findSchemaInner "auth_login_Body".data apiClientContent.data = none := by
  unfold findSchemaInner
  rw [apiContentLen]
  exact schemaTailLogin0

/-- The schema regex for `note_store_Body` matches nowhere in segment 0. -/
theorem schemaScanNote0 :
    schemaProbe "note_store_Body".data 700 apiTail0.data = .inr apiTail1.data := rfl

/-- The schema regex for `note_store_Body` matches nowhere in segment 1. -/
theorem schemaScanNote1 :
    schemaProbe "note_store_Body".data 700 apiTail1.data = .inr apiTail2.data := rfl

/-- The schema regex for `note_store_Body` matches nowhere in segment 2. -/
theorem schemaScanNote2 :
    schemaProbe "note_store_Body".data 700 apiTail2.data = .inr apiTail3.data := rfl

/-- The schema regex for `note_store_Body` matches nowhere in segment 3. -/
theorem schemaScanNote3 :
    schemaProbe "note_store_Body".data 700 apiTail3.data = .inr apiTail4.data := rfl

/-- The schema regex for `note_store_Body` matches nowhere in segment 4. -/
theorem schemaScanNote4 :
    schemaProbe "note_store_Body".data 700 apiTail4.data = .inr apiTail5.data := rfl

/-- The schema regex for `note_store_Body` matches nowhere in segment 5. -/
theorem schemaScanNote5 :
    schemaProbe "note_store_Body".data 700 apiTail5.data = .inr apiTail6.data := rfl

/-- The schema regex for `note_store_Body` matches nowhere in segment 6. -/
theorem schemaScanNote6 :
    schemaProbe "note_store_Body".data 700 apiTail6.data = .inr apiTail7.data := rfl

/-- The schema regex for `note_store_Body` matches nowhere in segment 7. -/
theorem schemaScanNote7 :
    schemaProbe "note_store_Body".data 700 apiTail7.data = .inr apiTail8.data := rfl

/-- The schema regex for `note_store_Body` matches nowhere in the last segment. -/
theorem schemaTailNote8 :
    findSchemaInnerAux "note_store_Body".data 176 apiTail8.data = none := rfl

/-- The schema regex for `note_store_Body` matches nowhere from character 4900 on. -/
theorem schemaTailNote7 :
    findSchemaInnerAux "note_store_Body".data 876 apiTail7.data = none := by
  have h : (876 : Nat) = 700 + 176 := by norm_num
  rw [h, findSchemaInnerAux_add, schemaScanNote7]
  exact schemaTailNote8

/-- The schema regex for `note_store_Body` matches nowhere from character 4200 on. -/
theorem schemaTailNote6 :
    findSchemaInnerAux "note_store_Body".data 1576 apiTail6.data = none := by
  have h : (1576 : Nat) = 700 + 876 := by norm_num
  rw [h, findSchemaInnerAux_add, schemaScanNote6]
  exact schemaTailNote7

/-- The schema regex for `note_store_Body` matches nowhere from character 3500 on. -/
theorem schemaTailNote5 :
    findSchemaInnerAux "note_store_Body".data 2276 apiTail5.data = none := by
  have h : (2276 : Nat) = 700 + 1576 := by norm_num
  rw [h, findSchemaInnerAux_add, schemaScanNote5]
  exact schemaTailNote6

/-- The schema regex for `note_store_Body` matches nowhere from character 2800 on. -/
theorem schemaTailNote4 :
    findSchemaInnerAux "note_store_Body".data 2976 apiTail4.data = none := by
  have h : (2976 : Nat) = 700 + 2276 := by norm_num
  rw [h, findSchemaInnerAux_add, schemaScanNote4]
  exact schemaTailNote5

/-- The schema regex for `note_store_Body` matches nowhere from character 2100 on. -/
theorem schemaTailNote3 :
    findSchemaInnerAux "note_store_Body".data 3676 apiTail3.data = none := by
  have h : (3676 : Nat) = 700 + 2976 := by norm_num
  rw [h, findSchemaInnerAux_add, schemaScanNote3]
  exact schemaTailNote4

/-- The schema regex for `note_store_Body` matches nowhere from character 1400 on. -/
theorem schemaTailNote2 :
    findSchemaInnerAux "note_store_Body".data 4376 apiTail2.data = none := by
  have h : (4376 : Nat) = 700 + 3676 := by norm_num
  rw [h, findSchemaInnerAux_add, schemaScanNote2]
  exact schemaTailNote3

/-- The schema regex for `note_store_Body` matches nowhere from character 700 on. -/
theorem schemaTailNote1 :
    findSchemaInnerAux "note_store_Body".data 5076 apiTail1.data = none := by
  have h : (5076 : Nat) = 700 + 4376 := by norm_num
  rw [h, findSchemaInnerAux_add, schemaScanNote1]
  exact schemaTailNote2

/-- The schema regex for `note_store_Body` matches nowhere from character 0 on. -/
theorem schemaTailNote0 :
    findSchemaInnerAux "note_store_Body".data 5776 apiTail0.data = none := by
  have h : (5776 : Nat) = 700 + 5076 := by norm_num
  rw [h, findSchemaInnerAux_add, schemaScanNote0]
  exact schemaTailNote1

/-- The schema declaration pattern for `note_store_Body` does not match anywhere
in the committed client file (the injected message objects put a closing
brace before the `).passthrough();` that the pattern requires). -/
theorem findSchemaInner_note_store_Body_none :
    findSchemaInner "note_store_Body".data apiClientContent.data = none := by
  unfold findSchemaInner
  rw [apiContentLen]
  exact schemaTailNote0

/-- Endpoint matches of the Auditor regex within segment 0. -/
theorem epScan0 :
    endpointProbe 700 apiTail0.data = .inl ([], apiTail1.data) := rfl

/-- Endpoint matches of the Auditor regex within segment 1. -/
theorem epScan1 :
    endpointProbe 700 apiTail1.data = .inl ([], apiTail2.data) := rfl

/-- Endpoint matches of the Auditor regex within segment 2. -/
theorem epScan2 :
    endpointProbe 637 apiTail2.data = .inl ([("post", "/auth/login", "auth.login")], apiTail3.data) := rfl

/-- Endpoint matches of the Auditor regex within segment 3. -/
theorem epScan3 :
    endpointProbe 566 apiTail3.data = .inl ([("post", "/auth/logout", "auth.logout"), ("post", "/auth/register", "auth.register")], apiTail4.data) := rfl

/-- Endpoint matches of the Auditor regex within segment 4. -/
theorem epScan4 :
    endpointProbe 700 apiTail4.data = .inl ([], apiTail5.data) := rfl

/-- Endpoint matches of the Auditor regex within segment 5. -/
theorem epScan5 :
    endpointProbe 506 apiTail5.data = .inl ([("get", "/auth/user", "auth.user"), ("get", "/documentation", "l5-swagger.default.api"), ("get", "/notes", "note.index")], apiTail6.data) := rfl

/-- Endpoint matches of the Auditor regex within segment 6. -/
theorem epScan6 :
    endpointProbe 642 apiTail6.data = .inl ([("post", "/notes", "note.store")], apiTail7.data) := rfl

/-- Endpoint matches of the Auditor regex within segment 7. -/
theorem epScan7 :
    endpointProbe 609 apiTail7.data = .inl ([("get", "/oauth2-callback", "l5-swagger.default.oauth2_callback")], apiTail8.data) := rfl

/-- The Auditor regex finds no endpoint in the last segment. -/
theorem epTail8 : extractEndpointsAux 716 apiTail8.data = [] := rfl

/-- Endpoints the Auditor extracts from character 4900 on. -/
theorem epTail7 :
    extractEndpointsAux 1325 apiTail7.data = [("get", "/oauth2-callback", "l5-swagger.default.oauth2_callback")] := by
  have h : (1325 : Nat) = 609 + 716 := by norm_num
  rw [h, extractEndpointsAux_add, epScan7]
  show [("get", "/oauth2-callback", "l5-swagger.default.oauth2_callback")] ++ extractEndpointsAux 716 apiTail8.data = _
  rw [epTail8]
  rfl

/-- Endpoints the Auditor extracts from character 4200 on. -/
theorem epTail6 :
    extractEndpointsAux 1967 apiTail6.data = [("post", "/notes", "note.store"), ("get", "/oauth2-callback", "l5-swagger.default.oauth2_callback")] := by
  have h : (1967 : Nat) = 642 + 1325 := by norm_num
  rw [h, extractEndpointsAux_add, epScan6]
  show [("post", "/notes", "note.store")] ++ extractEndpointsAux 1325 apiTail7.data = _
  rw [epTail7]
  rfl

/-- Endpoints the Auditor extracts from character 3500 on. -/
theorem epTail5 :
    extractEndpointsAux 2473 apiTail5.data = [("get", "/auth/user", "auth.user"), ("get", "/documentation", "l5-swagger.default.api"), ("get", "/notes", "note.index"), ("post", "/notes", "note.store"), ("get", "/oauth2-callback", "l5-swagger.default.oauth2_callback")] := by
  have h : (2473 : Nat) = 506 + 1967 := by norm_num
  rw [h, extractEndpointsAux_add, epScan5]
  show [("get", "/auth/user", "auth.user"), ("get", "/documentation", "l5-swagger.default.api"), ("get", "/notes", "note.index")] ++ extractEndpointsAux 1967 apiTail6.data = _
  rw [epTail6]
  rfl

/-- Endpoints the Auditor extracts from character 2800 on. -/
theorem epTail4 :
    extractEndpointsAux 3173 apiTail4.data = [("get", "/auth/user", "auth.user"), ("get", "/documentation", "l5-swagger.default.api"), ("get", "/notes", "note.index"), ("post", "/notes", "note.store"), ("get", "/oauth2-callback", "l5-swagger.default.oauth2_callback")] := by
  have h : (3173 : Nat) = 700 + 2473 := by norm_num
  rw [h, extractEndpointsAux_add, epScan4]
  show [] ++ extractEndpointsAux 2473 apiTail5.data = _
  rw [epTail5]
  rfl

/-- Endpoints the Auditor extracts from character 2100 on. -/
theorem epTail3 :
    extractEndpointsAux 3739 apiTail3.data = [("post", "/auth/logout", "auth.logout"), ("post", "/auth/register", "auth.register"), ("get", "/auth/user", "auth.user"), ("get", "/documentation", "l5-swagger.default.api"), ("get", "/notes", "note.index"), ("post", "/notes", "note.store"), ("get", "/oauth2-callback", "l5-swagger.default.oauth2_callback")] := by
  have h : (3739 : Nat) = 566 + 3173 := by norm_num
  rw [h, extractEndpointsAux_add, epScan3]
  show [("post", "/auth/logout", "auth.logout"), ("post", "/auth/register", "auth.register")] ++ extractEndpointsAux 3173 apiTail4.data = _
  rw [epTail4]
  rfl

/-- Endpoints the Auditor extracts from character 1400 on. -/
theorem epTail2 :
    extractEndpointsAux 4376 apiTail2.data = [("post", "/auth/login", "auth.login"), ("post", "/auth/logout", "auth.logout"), ("post", "/auth/register", "auth.register"), ("get", "/auth/user", "auth.user"), ("get", "/documentation", "l5-swagger.default.api"), ("get", "/notes", "note.index"), ("post", "/notes", "note.store"), ("get", "/oauth2-callback", "l5-swagger.default.oauth2_callback")] := by
  have h : (4376 : Nat) = 637 + 3739 := by norm_num
  rw [h, extractEndpointsAux_add, epScan2]
  show [("post", "/auth/login", "auth.login")] ++ extractEndpointsAux 3739 apiTail3.data = _
  rw [epTail3]
  rfl

/-- Endpoints the Auditor extracts from character 700 on. -/
theorem epTail1 :
    extractEndpointsAux 5076 apiTail1.data = [("post", "/auth/login", "auth.login"), ("post", "/auth/logout", "auth.logout"), ("post", "/auth/register", "auth.register"), ("get", "/auth/user", "auth.user"), ("get", "/documentation", "l5-swagger.default.api"), ("get", "/notes", "note.index"), ("post", "/notes", "note.store"), ("get", "/oauth2-callback", "l5-swagger.default.oauth2_callback")] := by
  have h : (5076 : Nat) = 700 + 4376 := by norm_num
  rw [h, extractEndpointsAux_add, epScan1]
  show [] ++ extractEndpointsAux 4376 apiTail2.data = _
  rw [epTail2]
  rfl

/-- Endpoints the Auditor extracts from character 0 on. -/
theorem epTail0 :
    extractEndpointsAux 5776 apiTail0.data = [("post", "/auth/login", "auth.login"), ("post", "/auth/logout", "auth.logout"), ("post", "/auth/register", "auth.register"), ("get", "/auth/user", "auth.user"), ("get", "/documentation", "l5-swagger.default.api"), ("get", "/notes", "note.index"), ("post", "/notes", "note.store"), ("get", "/oauth2-callback", "l5-swagger.default.oauth2_callback")] := by
  have h : (5776 : Nat) = 700 + 5076 := by norm_num
  rw [h, extractEndpointsAux_add, epScan0]
  show [] ++ extractEndpointsAux 5076 apiTail1.data = _
  rw [epTail1]
  rfl

/-- The full endpoint list the Consistency Auditor extracts from the
committed client file. -/
theorem extractedEndpoints_eval :
    extractedEndpoints apiClientContent = [("post", "/auth/login", "auth.login"), ("post", "/auth/logout", "auth.logout"), ("post", "/auth/register", "auth.register"), ("get", "/auth/user", "auth.user"), ("get", "/documentation", "l5-swagger.default.api"), ("get", "/notes", "note.index"), ("post", "/notes", "note.store"), ("get", "/oauth2-callback", "l5-swagger.default.oauth2_callback")] := by
  unfold extractedEndpoints
  rw [apiContentLen]
  exact epTail0


/-! ### Helper lemmas about the validator semantics and the rewrite pass -/

/-- If some declared property of a schema produces issues on an input, the
whole parse produces issues. -/
theorem zodParse_ne_nil (entries : List (String × JValue)) (fd : FieldSpec)
    (hne : fieldIssues fd entries ≠ []) :
    ∀ fields : List FieldSpec, fd ∈ fields → zodParse fields entries ≠ [] := by
  intro fields
  induction fields with
  | nil => intro h; exact absurd h (List.not_mem_nil fd)
  | cons g rest ih =>
    intro hmem hcontra
    have hcontra' : fieldIssues g entries ++ zodParse rest entries = [] := hcontra
    rcases List.append_eq_nil.mp hcontra' with ⟨h1, h2⟩
    rcases List.mem_cons.mp hmem with heq | hm
    · exact hne (heq ▸ h1)
    · exact ih hm h2

/-- A schema rejects any input from which one of its required properties is
absent. -/
theorem required_of_checks (sch : List FieldSpec) (fname : String)
    (h : fieldRequiredIn sch fname = true) :
    ∀ entries, lookupJ fname entries = none → zodParse sch entries ≠ [] := by
  intro entries hnone
  rcases List.any_eq_true.mp h with ⟨fd, hmem, hprop⟩
  simp only [Bool.and_eq_true] at hprop
  obtain ⟨hname, hopt⟩ := hprop
  have hname' : fd.name = fname := eq_of_beq hname
  apply zodParse_ne_nil entries fd _ _ hmem
  unfold fieldIssues
  rw [hname', hnone]
  have hfalse : fd.optional = false := by
    cases hb : fd.optional
    · rfl
    · rw [hb] at hopt; exact absurd hopt (by decide)
  rw [hfalse]
  simp

/-- A schema rejects any input in which a required property whose check
rejects the empty string is the empty string. -/
theorem rejectsEmpty_of_checks (sch : List FieldSpec) (fname : String)
    (h : fieldRejectsEmpty sch fname = true) :
    ∀ entries, lookupJ fname entries = some (.vStr "") →
      zodParse sch entries ≠ [] := by
  intro entries hval
  rcases List.any_eq_true.mp h with ⟨fd, hmem, hprop⟩
  simp only [Bool.and_eq_true] at hprop
  obtain ⟨⟨hname, _⟩, hch⟩ := hprop
  have hname' : fd.name = fname := eq_of_beq hname
  apply zodParse_ne_nil entries fd _ _ hmem
  unfold fieldIssues
  rw [hname', hval]
  rw [hname'] at hch
  show checkPrim [fname] fd.prim (.vStr "") ≠ []
  intro hc
  rw [hc] at hch
  exact absurd hch (by decide)

/-- `dropStart?` succeeds exactly by removing the pattern from the front. -/
theorem dropStart?_eq :
    ∀ pat s s' : List Char, dropStart? pat s = some s' → s = pat ++ s' := by
  intro pat
  induction pat with
  | nil =>
    intro s s' h
    have : s = s' := by simpa [dropStart?] using h
    simpa using this
  | cons p ps ih =>
    intro s s' h
    cases s with
    | nil => exact absurd h (by simp [dropStart?])
    | cons c cs =>
      by_cases hpc : p = c
      · subst hpc
        have h' : dropStart? ps cs = some s' := by simpa [dropStart?] using h
        simpa using ih cs s' h'
      · exact absurd h (by simp [dropStart?, hpc])

/-- A successful field-regex match splits the input into the matched text and
the rest. -/
theorem matchFieldHere_split (f s m p1 r : List Char)
    (h : matchFieldHere f s = some (m, p1, r)) : s = m ++ r := by
  unfold matchFieldHere at h
  split at h
  · exact absurd h (by simp)
  · rename_i s1 h1
    split at h
    · exact absurd h (by simp)
    · rename_i s3 h2
      injection h with htup
      simp only [Prod.mk.injEq] at htup
      obtain ⟨hm, hp, hr⟩ := htup
      have e1 : s = (f ++ [':']) ++ s1 := dropStart?_eq _ _ _ h1
      have e2 : s1.dropWhile isJsSpace = "z.string()".data ++ s3 :=
        dropStart?_eq _ _ _ h2
      have key : m ++ r = s := by
        rw [← hm, ← hr]
        calc f ++ [':'] ++ s1.takeWhile isJsSpace ++ "z.string()".data ++
              s3.takeWhile (fun c => c ≠ ',') ++
              s3.dropWhile (fun c => c ≠ ',')
            = (f ++ [':']) ++ (s1.takeWhile isJsSpace ++
                ("z.string()".data ++ (s3.takeWhile (fun c => c ≠ ',') ++
                  s3.dropWhile (fun c => c ≠ ',')))) := by
              simp [List.append_assoc]
          _ = (f ++ [':']) ++ (s1.takeWhile isJsSpace ++
                ("z.string()".data ++ s3)) := by
              rw [List.takeWhile_append_dropWhile]
          _ = (f ++ [':']) ++ (s1.takeWhile isJsSpace ++
                s1.dropWhile isJsSpace) := by rw [e2]
          _ = (f ++ [':']) ++ s1 := by rw [List.takeWhile_append_dropWhile]
          _ = s := e1.symm
      exact key.symm

/-- If every field-regex occurrence that the rewrite pass visits satisfies
the skip condition, the pass returns the text unchanged. -/
theorem rewriteFieldsAux_skip (f : List Char) :
    ∀ (fuel : Nat) (s : List Char), allMatchesSkippableAux f fuel s = true →
      rewriteFieldsAux f fuel s = s := by
  intro fuel
  induction fuel with
  | zero => intro s _; rfl
  | succ fuel ih =>
    intro s h
    cases s with
    | nil => rfl
    | cons c cs =>
      cases hm : matchFieldHere f (c :: cs) with
      | none =>
        have h' : allMatchesSkippableAux f fuel cs = true := by
          have := h
          unfold allMatchesSkippableAux at this
          rw [hm] at this
          exact this
        show (match matchFieldHere f (c :: cs) with
          | some (matched, p1, rest) =>
            (if skipCond p1 then matched else fieldReplacement f p1) ++
              rewriteFieldsAux f fuel rest
          | none => c :: rewriteFieldsAux f fuel cs) = c :: cs
        rw [hm, ih cs h']
      | some mr =>
        obtain ⟨m, p1, r⟩ := mr
        have h' : (skipCond p1 && allMatchesSkippableAux f fuel r) = true := by
          have := h
          unfold allMatchesSkippableAux at this
          rw [hm] at this
          exact this
        simp only [Bool.and_eq_true] at h'
        obtain ⟨hskip, htail⟩ := h'
        show (match matchFieldHere f (c :: cs) with
          | some (matched, p1, rest) =>
            (if skipCond p1 then matched else fieldReplacement f p1) ++
              rewriteFieldsAux f fuel rest
          | none => c :: rewriteFieldsAux f fuel cs) = c :: cs
        rw [hm]
        show (if skipCond p1 then m else fieldReplacement f p1) ++
            rewriteFieldsAux f fuel r = c :: cs
        rw [if_pos hskip, ih r htail]
        exact (matchFieldHere_split f (c :: cs) m p1 r hm).symm

/-- A schema whose declaration pattern is not found leaves the file content
unchanged (the `if (match)` guard of `addRequiredValidationToZodSchemas`). -/
theorem reinforceOne_noop (name : List Char) (fields : List (List Char))
    (content : List Char) (h : findSchemaInner name content = none) :
    reinforceOne name fields content = content := by
  unfold reinforceOne
  rw [h]

/-- Unfolding of the reinforcement fold for a three-schema map. -/
theorem addRequired_threeMap (m1 m2 m3 : String × List String) (content : String) :
    addRequiredValidationToZodSchemas [m1, m2, m3] content =
      String.mk (reinforceOne m3.1.data (m3.2.map String.data)
        (reinforceOne m2.1.data (m2.2.map String.data)
          (reinforceOne m1.1.data (m1.2.map String.data) content.data))) := rfl

/-- The required-field map `getRequiredFieldsFromOpenAPI` extracts from the
Contract Document. -/
theorem reqMap_eval :
    getRequiredFieldsFromOpenAPI =
      [ ("auth_register_Body",
          ["name", "email", "password", "password_confirmation"]),
        ("auth_login_Body", ["email", "password"]),
        ("note_store_Body", ["title", "content"]) ] := by decide


/-! ### The claims -/

/-- C1: counterexample.  `UserResource` is a component schema of the Contract
Document with a `required` list containing `name`, yet the generated
validator for `UserResource` accepts an input whose `name` is the empty
string — the Reinforcer's extraction is keyed only by request-body
operation ids and never visits component schemas, so the claimed
empty-string rejection does not hold for every schema with a `required`
list. -/
theorem c1_counterexample :
    ("UserResource", ["id", "name", "email", "created_at", "updated_at"]) ∈
        contractComponentRequired ∧
    "name" ∈ ["id", "name", "email", "created_at", "updated_at"] ∧
    zodParse (validatorOf "UserResource")
      [ ("id", .vNum 1), ("name", .vStr ""), ("email", .vStr "a@b.com"),
        ("created_at", .vStr "2025-05-07"), ("updated_at", .vStr "2025-05-07")
      ] = [] := by decide

/-- C1 (amended): for every schema of the Reinforcer's required-field map
(the request-body schemas extracted from the Contract Document) and every
property in its `required` list, the synthesized-and-reinforced validator
rejects any input in which that property is absent and any input in which it
is the empty string; component and response schemas, which the extraction
never visits, are not covered (see the counterexample). -/
theorem c1_required_closure_reinforced :
    ∀ p ∈ getRequiredFieldsFromOpenAPI, ∀ f ∈ p.2,
      ∀ entries : List (String × JValue),
        (lookupJ f entries = none → zodParse (validatorOf p.1) entries ≠ []) ∧
        (lookupJ f entries = some (.vStr "") →
          zodParse (validatorOf p.1) entries ≠ []) := by
  intro p hp
  rw [reqMap_eval] at hp
  fin_cases hp <;> intro f hf entries <;> fin_cases hf <;>
    exact ⟨fun h => required_of_checks _ _ (by decide) entries h,
           fun h => rejectsEmpty_of_checks _ _ (by decide) entries h⟩

/-- C1 (witness): the reinforced `note_store_Body` validator rejects an input
whose required `title` is the empty string. -/
theorem c1_required_closure_reinforced_witness :
    ("note_store_Body", ["title", "content"]) ∈ getRequiredFieldsFromOpenAPI ∧
    "title" ∈ ["title", "content"] ∧
    lookupJ "title" [("title", JValue.vStr "")] = some (.vStr "") ∧
    zodParse (validatorOf "note_store_Body") [("title", JValue.vStr "")] ≠ [] :=
  ⟨by decide, by decide, by decide,
    (c1_required_closure_reinforced ("note_store_Body", ["title", "content"])
      (by decide) "title" (by decide) [("title", JValue.vStr "")]).2 (by decide)⟩

/-- C2: counterexample.  A required string field whose pre-reinforcement check
carries only a max-length constraint DOES receive the empty-string rejection:
the field rewrite turns `title: z.string().max(255)` into a check with
`.min(1, ...)` prepended (the skip condition looks only for `.min(` and
`.email()`, and `.max(` is neither), and the committed post-reinforcement
`note_store_Body` validator rejects `title: ""`. -/
theorem c2_counterexample :
    rewriteFields "title".data "title: z.string().max(255)".data =
      "title: z.string().min(1, \x7b message: \x27title is required\x27 \x7d).max(255)".data ∧
    zodParse note_store_Body [("title", .vStr ""), ("content", .vStr "x")] =
      [⟨["title"], "title is required"⟩] := by decide

/-- C2 (amended): a required string field whose pre-reinforcement check
carries only a max-length constraint (such as `name` in `auth_register_Body`
and `title` in `note_store_Body`) DOES receive the empty-string rejection
from the Required-Field Reinforcer, and after the reinforcement pass the
validators reject the empty string for those fields. -/
theorem c2_maxonly_field_reinforced :
    rewriteFields "name".data "name: z.string().max(255)".data =
      "name: z.string().min(1, \x7b message: \x27name is required\x27 \x7d).max(255)".data ∧
    rewriteFields "title".data "title: z.string().max(255)".data =
      "title: z.string().min(1, \x7b message: \x27title is required\x27 \x7d).max(255)".data ∧
    (∀ entries, lookupJ "name" entries = some (.vStr "") →
        zodParse auth_register_Body entries ≠ []) ∧
    (∀ entries, lookupJ "title" entries = some (.vStr "") →
        zodParse note_store_Body entries ≠ []) := by
  refine ⟨by decide, by decide, fun entries h => ?_, fun entries h => ?_⟩
  · exact rejectsEmpty_of_checks _ _ (by decide) entries h
  · exact rejectsEmpty_of_checks _ _ (by decide) entries h

/-- C2 (witness): the reinforced `auth_register_Body` validator rejects an
input whose `name` (a max-length-only field before reinforcement) is the
empty string. -/
theorem c2_maxonly_field_reinforced_witness :
    lookupJ "name" [("name", JValue.vStr "")] = some (.vStr "") ∧
    zodParse auth_register_Body [("name", JValue.vStr "")] ≠ [] :=
  ⟨by decide,
    c2_maxonly_field_reinforced.2.2.1 [("name", JValue.vStr "")] (by decide)⟩

/-- C3: counterexample.  The Auditor does not extract from the Contract
Document and reports no asymmetry between the two sources: its whole run is
a function of the client file content alone (`checkEndpointsRun` takes no
contract input, mirroring `check-endpoints.js`, which never opens
`openapi.json`).  On a client content implementing no endpoint, the pair
`post /auth/login` is declared by the Contract Document and missing from the
client — an asymmetry — yet the Auditor's observable output is exit code 0
with the empty extracted list, reporting nothing. -/
theorem c3_counterexample :
    ("post", "/auth/login") ∈ contractEndpointPairs ∧
    checkEndpointsRun true "" = (0, []) ∧
    ("post", "/auth/login") ∉
      ((checkEndpointsRun true "").2.map (fun t => (t.1, t.2.1))) := by decide

/-- C3 (amended): the Auditor extracts `{method, path, alias}` triples from
the synthesized client's output only; on the repository's committed
artifacts the extracted list nevertheless coincides with the Contract
Document's `paths` map — exactly the eight triples of the client, every
contract `{method, path}` pair appears in the extracted list, and every
extracted pair appears in the contract, so on these artifacts no asymmetry
exists that the (comparison-free) report could miss. -/
theorem c3_auditor_completeness :
    extractedEndpoints apiClientContent =
      [ ("post", "/auth/login", "auth.login"),
        ("post", "/auth/logout", "auth.logout"),
        ("post", "/auth/register", "auth.register"),
        ("get", "/auth/user", "auth.user"),
        ("get", "/documentation", "l5-swagger.default.api"),
        ("get", "/notes", "note.index"),
        ("post", "/notes", "note.store"),
        ("get", "/oauth2-callback", "l5-swagger.default.oauth2_callback") ] ∧
    (∀ mp ∈ contractEndpointPairs,
        mp ∈ (extractedEndpoints apiClientContent).map (fun t => (t.1, t.2.1))) ∧
    (∀ mp ∈ (extractedEndpoints apiClientContent).map (fun t => (t.1, t.2.1)),
        mp ∈ contractEndpointPairs) := by
  refine ⟨extractedEndpoints_eval, ?_, ?_⟩
  · rw [extractedEndpoints_eval]
    decide
  · rw [extractedEndpoints_eval]
    decide

/-- C3 (witness): the contract pair `post /auth/login` appears in the
Auditor's extracted endpoint list. -/
theorem c3_auditor_completeness_witness :
    ("post", "/auth/login") ∈ contractEndpointPairs ∧
    ("post", "/auth/login") ∈
      (extractedEndpoints apiClientContent).map (fun t => (t.1, t.2.1)) :=
  ⟨by decide, c3_auditor_completeness.2.1 ("post", "/auth/login") (by decide)⟩

/-- C4: the generated `note_store_Body` validator rejects an empty `title`
with the single issue `title is required` at the `title` path, rejects an
absent `title` with the single issue `Required` at the same `title` path,
and accepts the valid note. -/
theorem c4_note_store_scenario :
    zodParse note_store_Body [("title", .vStr ""), ("content", .vStr "x")] =
      [⟨["title"], "title is required"⟩] ∧
    zodParse note_store_Body [("content", .vStr "x")] =
      [⟨["title"], "Required"⟩] ∧
    zodParse note_store_Body
      [("title", .vStr "My Note"), ("content", .vStr "Body text")] = [] := by
  decide

/-- C5: the generated `auth_login_Body` validator rejects a malformed email
with the single email-format issue, rejects an empty password with the
single `password is required` issue, and accepts the valid login. -/
theorem c5_auth_login_scenario :
    zodParse auth_login_Body
      [("email", .vStr "not-an-email"), ("password", .vStr "x")] =
      [⟨["email"], "Invalid email"⟩] ∧
    zodParse auth_login_Body
      [("email", .vStr "a@b.com"), ("password", .vStr "")] =
      [⟨["password"], "password is required"⟩] ∧
    zodParse auth_login_Body
      [("email", .vStr "a@b.com"), ("password", .vStr "secret")] = [] := by
  decide

/-- C6: when every occurrence of a required property's check that the field
regex matches already carries `.min(` or `.email()` in its captured segment,
the Reinforcer's field rewrite returns the text unchanged — it alters no
threshold or message and duplicates no constraint. -/
theorem c6_reinforcer_non_weakening (f s : List Char)
    (h : allMatchesSkippable f s = true) : rewriteFields f s = s :=
  rewriteFieldsAux_skip f s.length s h

/-- C6 (witness): a password check that already carries `.min(8, ...)` is
left textually unchanged by the field rewrite. -/
theorem c6_reinforcer_non_weakening_witness :
    allMatchesSkippable "password".data minEightFieldText.data = true ∧
    rewriteFields "password".data minEightFieldText.data =
      minEightFieldText.data :=
  ⟨by decide, c6_reinforcer_non_weakening "password".data minEightFieldText.data
    (by decide)⟩

/-- C7: counterexample.  The Reinforcer is not idempotent for every input
file content: on a content in which the object body of the
`note_store_Body` declaration also occurs verbatim before the declaration,
`content.replace(match[1], schemaContent)` splices the rewritten body into
the earlier copy, the declaration itself stays unchanged, and a second run
rewrites it again, producing a different file. -/
theorem c7_counterexample :
    addRequiredValidationToZodSchemas getRequiredFieldsFromOpenAPI
        (addRequiredValidationToZodSchemas getRequiredFieldsFromOpenAPI
          duplicatedTitleContent) ≠
      addRequiredValidationToZodSchemas getRequiredFieldsFromOpenAPI
        duplicatedTitleContent := by decide

/-- C7 (amended): on the repository's committed generated artifact the
Reinforcer's rewrite is the identity — applying
`addRequiredValidationToZodSchemas` with the contract's required-field map to
the committed `api-client.ts` returns it unchanged (the injected
`{ message: ... }` objects place a closing brace before the
`).passthrough();` that the schema pattern requires, so no schema matches
again) — but idempotence does not hold for every input file content. -/
theorem c7_reinforcer_noop_on_artifact :
    addRequiredValidationToZodSchemas getRequiredFieldsFromOpenAPI
        apiClientContent = apiClientContent := by
  rw [reqMap_eval, addRequired_threeMap]
  dsimp only
  rw [reinforceOne_noop _ _ _ findSchemaInner_auth_register_Body_none,
      reinforceOne_noop _ _ _ findSchemaInner_auth_login_Body_none,
      reinforceOne_noop _ _ _ findSchemaInner_note_store_Body_none]

/-- C8: a schema of the required-field map whose declaration pattern is not
found in the generated file is silently skipped — the file content is
returned unchanged both by that schema's reinforcement step and by the whole
rewrite run, which completes normally. -/
theorem c8_silent_skip (name : String) (fields : List String) (content : String)
    (h : findSchemaInner name.data content.data = none) :
    reinforceOne name.data (fields.map String.data) content.data =
        content.data ∧
    addRequiredValidationToZodSchemas [(name, fields)] content = content := by
  have h1 := reinforceOne_noop name.data (fields.map String.data) content.data h
  refine ⟨h1, ?_⟩
  show String.mk (reinforceOne name.data (fields.map String.data) content.data)
      = content
  rw [h1]

/-- C8 (witness): `auth_register_Body` has no declaration in the content
`hello world`, and the rewrite run leaves that content unchanged. -/
theorem c8_silent_skip_witness :
    findSchemaInner "auth_register_Body".data "hello world".data = none ∧
    addRequiredValidationToZodSchemas [("auth_register_Body", ["name"])]
        "hello world" = "hello world" :=
  ⟨by decide,
    (c8_silent_skip "auth_register_Body" ["name"] "hello world" (by decide)).2⟩

/-- C9: counterexample.  When the generated client file is absent the
Consistency Auditor calls `process.exit(1)`: its exit code is not zero. -/
theorem c9_counterexample : (checkEndpointsRun false "").1 ≠ 0 := by decide

/-- C9 (amended): the standalone Consistency Auditor exits zero whenever the
generated client file exists (it is diagnostic-only and never blocks), and
exits one when the file is absent. -/
theorem c9_auditor_exit_code :
    (∀ content : String, (checkEndpointsRun true content).1 = 0) ∧
    (∀ content : String, (checkEndpointsRun false content).1 = 1) :=
  ⟨fun _ => rfl, fun _ => rfl⟩

/-- C10: for every input whose individual field checks pass,
`ExtendedRegisterSchema` succeeds exactly when `password` equals
`password_confirmation`; when they differ, the result is the single issue
`Passwords don\x27t match` at the `password_confirmation` path, leaving
every other field's outcome untouched. -/
theorem c10_password_confirmation_refinement (entries : List (String × JValue))
    (h : zodParse ExtendedRegisterObject entries = []) :
    (parseExtendedRegister entries = [] ↔
      lookupJ "password" entries = lookupJ "password_confirmation" entries) ∧
    (lookupJ "password" entries ≠ lookupJ "password_confirmation" entries →
      parseExtendedRegister entries =
        [⟨["password_confirmation"], "Passwords don\x27t match"⟩]) := by
  simp only [parseExtendedRegister, h, List.isEmpty_nil, if_true]
  by_cases he : lookupJ "password" entries = lookupJ "password_confirmation" entries
  · simp [he]
  · simp [he]

/-- C10 (witness): a register input that passes every field check but whose
passwords disagree fails with exactly the cross-field issue. -/
theorem c10_password_confirmation_refinement_witness :
    zodParse ExtendedRegisterObject mismatchedRegisterInput = [] ∧
    lookupJ "password" mismatchedRegisterInput ≠
      lookupJ "password_confirmation" mismatchedRegisterInput ∧
    parseExtendedRegister mismatchedRegisterInput =
      [⟨["password_confirmation"], "Passwords don\x27t match"⟩] :=
  ⟨by decide, by decide,
    (c10_password_confirmation_refinement mismatchedRegisterInput
      (by decide)).2 (by decide)⟩

end ApiPipeline
